import Mathlib

/-!
Verification of the harp.gl label-placement pre-filter and tile transforms.

Shallow embedding of the label placement pre-filter (`Placement.ts` in
`@here/harp-mapview`), the deduplication and fade machinery of the label
placement engine as described by the specification, and the tile/world
coordinate transforms (`OmvUtils` in `@here/harp-omv-datasource`).

Coordinates and times are modelled as rationals; the external vector-math
collaborator (distance, normalization from THREE.js, which the spec places
out of scope) is kept abstract as a pair of function parameters.
-/

/-- A 3D vector, standing for the external `THREE.Vector3` values that the
placement code reads and writes. -/
structure V3 where
  x : ℚ
  y : ℚ
  z : ℚ
deriving DecidableEq

/-- Componentwise vector addition (`THREE.Vector3.add`). -/
def V3.add (a b : V3) : V3 := ⟨a.x + b.x, a.y + b.y, a.z + b.z⟩

/-- Dot product (`THREE.Vector3.dot`). -/
def V3.dot (a b : V3) : ℚ := a.x * b.x + a.y * b.y + a.z * b.z

/-- The zero vector. -/
def V3.zero : V3 := ⟨0, 0, 0⟩

/-- The external vector-math operations used by `Placement.ts` that belong to
the out-of-scope math library: point-to-point distance (`Vector3.distanceTo`)
and normalization (`Vector3.normalize`). They are supplied as parameters to
the placement functions. -/
structure VecOps where
  distanceTo : V3 → V3 → ℚ
  normalize : V3 → V3

/-- Projection kinds relevant to placement (`ProjectionType` from
harp-geoutils): the placement code only distinguishes spherical from the
rest. -/
inductive ProjectionType where
  | Planar
  | Spherical
deriving DecidableEq

/-- Modelled from the spec: a text element's anchor geometry is either a
single point or a polyline path (the `TextElement` class itself is not part
of the corpus; `Placement.ts` tests `Array.isArray(textElement.points)`). -/
inductive TextPoints where
  | single (p : V3)
  | path (ps : List V3)
deriving DecidableEq

/-- Modelled from the spec: the candidate label record (`TextElement`, not
part of the corpus) restricted to the fields read or written by
`checkReadyForPlacement`: anchor geometry, visibility flag, zoom range, the
transient tile-center cache, the stable deduplication key and the integer
priority. -/
structure TextElement where
  points : TextPoints
  visible : Bool
  minZoomLevel : Option ℚ
  maxZoomLevel : Option ℚ
  tileCenter : Option V3
  dedupKey : ℕ
  priority : ℤ
deriving DecidableEq

/-- Modelled from the spec: `TextElement.position` is the label's anchor
point (for a path, its first point). -/
def TextElement.position (e : TextElement) : V3 :=
  match e.points with
  | TextPoints.single p => p
  | TextPoints.path ps => ps.headD V3.zero

/-- The non-null access `textElement.tileCenter!` of the source, with a
default for the undefined case (which the call sites never exercise: the
claims about it carry a `tileCenter = some c` hypothesis). -/
def TextElement.tileCenterD (e : TextElement) : V3 := e.tileCenter.getD V3.zero

/-- The part of `Tile` read by `checkReadyForPlacement`: its world-space
center. -/
structure Tile where
  center : V3

/-- The view collaborator (`MapView`) as read by the placement pre-filter:
world center, projection type, zoom level, the camera's world direction
(`camera.getWorldDirection`), and the POI manager's `updatePoiFromPoiTable`.
The latter reports readiness and, per the source comment, may change the
element's visibility and zoom range; this in-place update is modelled by
returning the updated element next to the readiness flag. -/
structure MapViewM where
  worldCenter : V3
  projectionType : ProjectionType
  zoomLevel : ℚ
  cameraDir : V3
  poiUpdate : TextElement → Bool × TextElement

/-- `computeViewDistance` from `Placement.ts`: for a path with more than one
point, the minimum of the distances from the reference position to the
path's first and last points (each offset by the tile center); otherwise
the distance from the reference position to the element's position offset
by the tile center. -/
def computeViewDistance (ops : VecOps) (refPosition : V3) (textElement : TextElement) : ℚ :=
  match textElement.points with
  | TextPoints.path ps =>
    if 1 < ps.length then
      let viewDistance0 := ops.distanceTo refPosition ((ps.headD V3.zero).add textElement.tileCenterD)
      let viewDistance1 :=
        ops.distanceTo refPosition ((ps.getLastD V3.zero).add textElement.tileCenterD)
      min viewDistance0 viewDistance1
    else
      ops.distanceTo refPosition (textElement.position.add textElement.tileCenterD)
  | TextPoints.single _ =>
    ops.distanceTo refPosition (textElement.position.add textElement.tileCenterD)

/-- `checkViewDistance` from `Placement.ts`: the element's view distance when
it passes the maximum-distance test (and, under spherical projection, also
the facing-the-camera test against the fixed threshold `-0.6`), otherwise
`none`. -/
def checkViewDistance (ops : VecOps) (textElement : TextElement) (mapView : MapViewM)
    (maxViewDistance : ℚ) : Option ℚ :=
  let textDistance := computeViewDistance ops mapView.worldCenter textElement
  if mapView.projectionType ≠ ProjectionType.Spherical then
    if textDistance ≤ maxViewDistance then some textDistance else none
  else
    let pos := ops.normalize (textElement.position.add textElement.tileCenterD)
    if pos.dot mapView.cameraDir < -(0.6 : ℚ) ∧ textDistance ≤ maxViewDistance then
      some textDistance
    else
      none

/-- Modelled from the spec: `MathUtils.isClamped` (harp-utils, not part of
the corpus) — whether the value lies within the optional lower and upper
bounds, an absent bound meaning unbounded. -/
def isClamped (value : ℚ) (lowerBound upperBound : Option ℚ) : Bool :=
  (match lowerBound with
   | some lo => decide (lo ≤ value)
   | none => true) &&
  (match upperBound with
   | some hi => decide (value ≤ hi)
   | none => true)

/-- The per-frame deduplication record: for every deduplication key, the
priority of the accepted representative (most recently recorded first). -/
abbrev DedupCache := List (ℕ × ℤ)

/-- The representative entry recorded for a deduplication key, if any. -/
def dedupLookup (cache : DedupCache) (key : ℕ) : Option (ℕ × ℤ) :=
  cache.find? (fun ent => ent.1 == key)

/-- Modelled from the spec: `TextElementStateCache.deduplicateElement` (the
cache class is not part of the corpus): returns `false` when an
equal-or-higher-priority instance of the same deduplication key was already
accepted this frame, otherwise `true`, recording this candidate as the
frame's representative for its key. -/
def deduplicateElement (cache : DedupCache) (textElement : TextElement)
    (_lastFrameNumber : Option ℕ) : Bool × DedupCache :=
  match dedupLookup cache textElement.dedupKey with
  | some ent =>
    if textElement.priority ≤ ent.2 then (false, cache)
    else (true, (textElement.dedupKey, textElement.priority) :: cache)
  | none => (true, (textElement.dedupKey, textElement.priority) :: cache)

/-- `PrePlacementResult` from `Placement.ts`. -/
inductive PrePlacementResult where
  | Ok
  | NotReady
  | Invisible
  | TooFar
  | Duplicate
  | Count
deriving DecidableEq

/-- The tile-center refresh performed by `checkReadyForPlacement`: the
candidate's `tileCenter` is set to the tile's center shifted along X by the
world offset. -/
def withTileCenter (textElement : TextElement) (tile : Tile) (worldOffsetX : ℚ) : TextElement :=
  { textElement with
    tileCenter := some ⟨tile.center.x + worldOffsetX, tile.center.y, tile.center.z⟩ }

/-- The view-distance stage of `checkReadyForPlacement` (the conditional
expression assigning `viewDistance`): with no maximum distance the plain
view distance, otherwise the result of `checkViewDistance`. The element is
expected to already carry the refreshed tile center. -/
def preFilterViewDistance (ops : VecOps) (textElement : TextElement) (mapView : MapViewM)
    (maxViewDistance : Option ℚ) : Option ℚ :=
  match maxViewDistance with
  | none => some (computeViewDistance ops mapView.worldCenter textElement)
  | some maxVD => checkViewDistance ops textElement mapView maxVD

/-- Everything `checkReadyForPlacement` produces or updates in place: the
result code, the view distance, the candidate element as the call leaves it,
and the deduplication cache after any recording. -/
structure PlacementOutcome where
  result : PrePlacementResult
  viewDistance : Option ℚ
  element : TextElement
  cache : DedupCache

/-- `checkReadyForPlacement` from `Placement.ts`: the early rejection tests,
in source order — visibility, POI-table readiness, post-POI visibility and
zoom range, tile-center refresh, view distance, deduplication. -/
def checkReadyForPlacement (ops : VecOps) (textElement : TextElement) (tile : Tile)
    (worldOffsetX : ℚ) (mapView : MapViewM) (textElementCache : DedupCache)
    (maxViewDistance : Option ℚ) (lastFrameNumber : Option ℕ) : PlacementOutcome :=
  if textElement.visible = false then
    ⟨PrePlacementResult.Invisible, none, textElement, textElementCache⟩
  else
    let poiResult := mapView.poiUpdate textElement
    if poiResult.1 = false then
      ⟨PrePlacementResult.NotReady, none, poiResult.2, textElementCache⟩
    else if poiResult.2.visible = false ∨
        isClamped mapView.zoomLevel poiResult.2.minZoomLevel poiResult.2.maxZoomLevel = false then
      ⟨PrePlacementResult.Invisible, none, poiResult.2, textElementCache⟩
    else
      let updated := withTileCenter poiResult.2 tile worldOffsetX
      match preFilterViewDistance ops updated mapView maxViewDistance with
      | none => ⟨PrePlacementResult.TooFar, none, updated, textElementCache⟩
      | some vd =>
        let dedupResult := deduplicateElement textElementCache updated lastFrameNumber
        if dedupResult.1 = false then
          ⟨PrePlacementResult.Duplicate, none, updated, dedupResult.2⟩
        else
          ⟨PrePlacementResult.Ok, some vd, updated, dedupResult.2⟩

/-- The candidate reaches the view-distance stage of `checkReadyForPlacement`:
it is visible, the POI table is ready, and after POI resolution it is still
visible with the zoom level inside its zoom range. -/
def reachesDistanceCheck (textElement : TextElement) (mapView : MapViewM) : Prop :=
  textElement.visible = true ∧
  (mapView.poiUpdate textElement).1 = true ∧
  (mapView.poiUpdate textElement).2.visible = true ∧
  isClamped mapView.zoomLevel (mapView.poiUpdate textElement).2.minZoomLevel
    (mapView.poiUpdate textElement).2.maxZoomLevel = true

instance (e : TextElement) (mv : MapViewM) : Decidable (reachesDistanceCheck e mv) := by
  unfold reachesDistanceCheck
  infer_instance

/-- A concrete instantiation of the vector-math collaborator, used to
evaluate the placement model on examples: squared euclidean distance and the
identity as normalization. -/
def sampleOps : VecOps :=
  ⟨fun a b =>
    (b.x - a.x) * (b.x - a.x) + (b.y - a.y) * (b.y - a.y) + (b.z - a.z) * (b.z - a.z),
   fun v => v⟩

/-- Modelled from the spec: the per-frame candidate loop of the Label
Placement Engine (`TextElementsRenderer`, not part of the corpus) restricted
to the pre-filter stage: candidates are processed in order, threading the
deduplication cache through `checkReadyForPlacement`, and each candidate's
placement result is collected. -/
def placeCandidates (ops : VecOps) (tile : Tile) (worldOffsetX : ℚ) (mapView : MapViewM)
    (maxViewDistance : Option ℚ) (lastFrameNumber : Option ℕ) :
    List TextElement → DedupCache → List PrePlacementResult
  | [], _ => []
  | e :: rest, cache =>
    let out := checkReadyForPlacement ops e tile worldOffsetX mapView cache
      maxViewDistance lastFrameNumber
    out.result ::
      placeCandidates ops tile worldOffsetX mapView maxViewDistance lastFrameNumber rest out.cache

/-- The deduplication cache left after processing a list of candidates in
order (the cache component of the fold performed by `placeCandidates`). -/
def placeCache (ops : VecOps) (tile : Tile) (worldOffsetX : ℚ) (mapView : MapViewM)
    (maxViewDistance : Option ℚ) (lastFrameNumber : Option ℕ) :
    List TextElement → DedupCache → DedupCache
  | [], cache => cache
  | e :: rest, cache =>
    placeCache ops tile worldOffsetX mapView maxViewDistance lastFrameNumber rest
      (checkReadyForPlacement ops e tile worldOffsetX mapView cache maxViewDistance
        lastFrameNumber).cache

/-- A candidate (under a POI resolution that is ready and leaves elements
unchanged) passes every pre-filter stage before deduplication: it is
visible, the zoom level lies in its zoom range, and the view-distance stage
yields a distance. -/
def passesPreChecks (ops : VecOps) (e : TextElement) (tile : Tile) (off : ℚ)
    (mv : MapViewM) (maxVD : Option ℚ) : Prop :=
  e.visible = true ∧
  isClamped mv.zoomLevel e.minZoomLevel e.maxZoomLevel = true ∧
  preFilterViewDistance ops (withTileCenter e tile off) mv maxVD ≠ none

/-! ## Fade state machine

The fade state machine of the Label Placement Engine (`RenderState` /
`TextElementsRenderer`); their implementation is not part of the corpus
(only their test is), so the machine is modelled from the spec, section 4.5.
-/

/-- Modelled from the spec: the fading phases of a label's persistent render
state. `Undefined` is the untracked initial phase. -/
inductive FadingState where
  | Undefined
  | FadingIn
  | Steady
  | FadingOut
  | Gone
deriving DecidableEq

/-- Modelled from the spec: a label's persistent fade state — the current
phase, the current opacity, the opacity at which the current fade began, and
the caller-supplied clock time at which it began (the clock value 0 being
reserved as uninitialized). -/
structure FadeState where
  value : FadingState
  opacity : ℚ
  startOpacity : ℚ
  fadeStart : ℚ
deriving DecidableEq

/-- Modelled from the spec: the untracked initial state — opacity 0 and the
reserved clock value 0. -/
def FadeState.initial : FadeState := ⟨FadingState.Undefined, 0, 0, 0⟩

/-- Modelled from the spec: on an Ok placement, a label that is not already
fading in or steady starts fading in from its current opacity (0 when
untracked; the preserved current opacity when it was fading out, giving the
smooth recovery the spec requires). -/
def startFadeIn (s : FadeState) (time : ℚ) : FadeState :=
  match s.value with
  | FadingState.FadingIn => s
  | FadingState.Steady => s
  | _ => ⟨FadingState.FadingIn, s.opacity, s.opacity, time⟩

/-- Modelled from the spec: advance the fade to the caller-supplied clock
value. While fading in, opacity rises linearly from the start opacity at
rate `1 / fadeDuration`, becoming exactly 1 (phase Steady) once it reaches
1; while fading out it falls at the same rate, becoming exactly 0 (phase
Gone) once it reaches 0. Other phases hold their opacity. -/
def updateFading (s : FadeState) (time fadeDuration : ℚ) : FadeState :=
  match s.value with
  | FadingState.FadingIn =>
    let fadingTime := time - s.fadeStart
    let o := s.startOpacity + fadingTime / fadeDuration
    if 1 ≤ o then ⟨FadingState.Steady, 1, s.startOpacity, s.fadeStart⟩
    else ⟨FadingState.FadingIn, max 0 o, s.startOpacity, s.fadeStart⟩
  | FadingState.FadingOut =>
    let fadingTime := time - s.fadeStart
    let o := s.startOpacity - fadingTime / fadeDuration
    if o ≤ 0 then ⟨FadingState.Gone, 0, s.startOpacity, s.fadeStart⟩
    else ⟨FadingState.FadingOut, min 1 o, s.startOpacity, s.fadeStart⟩
  | _ => s

/-- Modelled from the spec: one frame of the engine for a label that is
continuously Ok-placed: a clock value of 0 is reserved as uninitialized and
must not be treated as a real frame time, so such a frame leaves the state
untouched; otherwise the label starts fading in if needed and its fade is
advanced to the frame time. -/
def placeFrame (s : FadeState) (fadeDuration time : ℚ) : FadeState :=
  if time = 0 then s
  else updateFading (startFadeIn s time) time fadeDuration

/-- Modelled from the spec: successive frames for a continuously Ok-placed
label at the given clock times. -/
def placeFrames (fadeDuration : ℚ) (s : FadeState) : List ℚ → FadeState
  | [] => s
  | t :: ts => placeFrames fadeDuration (placeFrame s fadeDuration t) ts

/-! ## Tile/world transforms (`OmvUtils` from `@here/harp-omv-datasource`)

`tile2world` and `world2tile` read `top`, `left` and `scale` from the
decode info's `WorldTileProjectionCookie` (recomputing it deterministically
from the extents and decode info when absent or stale, so both directions
see the same cookie values) and the Earth's equatorial circumference `R`.
The cookie fields and `R` appear here as rational parameters; for every
actual cookie `scale` is a positive power of two and `R` is positive.
-/

/-- A 2D vector (`THREE.Vector2`), as used by the tile/world transforms. -/
structure V2 where
  x : ℚ
  y : ℚ
deriving DecidableEq

/-- The fields of `WorldTileProjectionCookie` read by the transforms. -/
structure WorldTileProjectionCookie where
  extents : ℚ
  top : ℚ
  left : ℚ
  scale : ℚ

/-- `OmvUtils.tile2world`: maps a tile-local position to world coordinates
using the cookie's `top`, `left` and `scale` and the equatorial
circumference `R`, optionally flipping the Y axis. -/
def OmvUtils.tile2world (cookie : WorldTileProjectionCookie) (position : V2) (flipY : Bool)
    (R : ℚ) : V2 :=
  ⟨((cookie.left + position.x) / cookie.scale) * R,
   ((cookie.top + (if flipY then -position.y else position.y)) / cookie.scale) * R⟩

/-- `OmvUtils.world2tile`: maps a world position back to tile-local
coordinates using the same cookie fields, optionally flipping the Y axis. -/
def OmvUtils.world2tile (cookie : WorldTileProjectionCookie) (position : V2) (flipY : Bool)
    (R : ℚ) : V2 :=
  ⟨(position.x / R) * cookie.scale - cookie.left,
   (if flipY then -1 else 1) * ((position.y / R) * cookie.scale - cookie.top)⟩

/-! ## Concrete sample data, used to evaluate the model on examples -/

/-- A tile centered at the origin. -/
def sampleTile : Tile := ⟨V3.zero⟩

/-- A planar view at zoom 10 whose POI resolution is ready and leaves
elements unchanged. -/
def sampleView : MapViewM :=
  ⟨V3.zero, ProjectionType.Planar, 10, V3.zero, fun e => (true, e)⟩

/-- A spherical view at zoom 10, camera world direction along positive Z,
POI resolution ready and trivial. -/
def sphereView : MapViewM :=
  ⟨V3.zero, ProjectionType.Spherical, 10, ⟨0, 0, 1⟩, fun e => (true, e)⟩

/-- A view whose POI resolution reports ready but switches the element's
visibility off — the in-place update the source comment warrants
(`updatePoiFromPoiTable ... may change those values`). -/
def poiHidingView : MapViewM :=
  ⟨V3.zero, ProjectionType.Planar, 10, V3.zero, fun e => (true, { e with visible := false })⟩

/-- A visible point-anchored element at x = 3 with deduplication key 7 and
priority 5. -/
def sampleElement : TextElement :=
  ⟨TextPoints.single ⟨3, 0, 0⟩, true, none, none, none, 7, 5⟩

/-- A second element with the same deduplication key 7 but lower priority 3. -/
def sampleElementLowPrio : TextElement :=
  ⟨TextPoints.single ⟨1, 0, 0⟩, true, none, none, none, 7, 3⟩

/-- An element whose visibility flag is off. -/
def hiddenElement : TextElement :=
  ⟨TextPoints.single ⟨3, 0, 0⟩, false, none, none, none, 7, 5⟩

/-- A path-anchored element with two points and a cached tile center. -/
def samplePathElement : TextElement :=
  ⟨TextPoints.path [⟨0, 0, 0⟩, ⟨4, 0, 0⟩], true, none, none, some ⟨1, 0, 0⟩, 8, 0⟩

/-- A point element on the unit sphere opposite to the camera direction of
`sphereView`. -/
def poleElement : TextElement :=
  ⟨TextPoints.single ⟨0, 0, -1⟩, true, none, none, none, 9, 0⟩

/-! ## Shared evaluation lemmas for `checkReadyForPlacement` -/

theorem checkReady_of_invisible (ops : VecOps) (e : TextElement) (tile : Tile) (off : ℚ)
    (mv : MapViewM) (cache : DedupCache) (maxVD : Option ℚ) (lastF : Option ℕ)
    (h : e.visible = false) :
    checkReadyForPlacement ops e tile off mv cache maxVD lastF =
      ⟨PrePlacementResult.Invisible, none, e, cache⟩ := by
  simp [checkReadyForPlacement, h]

theorem checkReady_of_notReady (ops : VecOps) (e : TextElement) (tile : Tile) (off : ℚ)
    (mv : MapViewM) (cache : DedupCache) (maxVD : Option ℚ) (lastF : Option ℕ)
    (h1 : e.visible = true) (h2 : (mv.poiUpdate e).1 = false) :
    checkReadyForPlacement ops e tile off mv cache maxVD lastF =
      ⟨PrePlacementResult.NotReady, none, (mv.poiUpdate e).2, cache⟩ := by
  simp [checkReadyForPlacement, h1, h2]

theorem checkReady_of_poiInvisible (ops : VecOps) (e : TextElement) (tile : Tile) (off : ℚ)
    (mv : MapViewM) (cache : DedupCache) (maxVD : Option ℚ) (lastF : Option ℕ)
    (h1 : e.visible = true) (h2 : (mv.poiUpdate e).1 = true)
    (h3 : (mv.poiUpdate e).2.visible = false ∨
      isClamped mv.zoomLevel (mv.poiUpdate e).2.minZoomLevel (mv.poiUpdate e).2.maxZoomLevel
        = false) :
    checkReadyForPlacement ops e tile off mv cache maxVD lastF =
      ⟨PrePlacementResult.Invisible, none, (mv.poiUpdate e).2, cache⟩ := by
  rcases h3 with h3 | h3 <;> simp [checkReadyForPlacement, h1, h2, h3]

theorem checkReady_of_reaches (ops : VecOps) (e : TextElement) (tile : Tile) (off : ℚ)
    (mv : MapViewM) (cache : DedupCache) (maxVD : Option ℚ) (lastF : Option ℕ)
    (h : reachesDistanceCheck e mv) :
    checkReadyForPlacement ops e tile off mv cache maxVD lastF =
      (match preFilterViewDistance ops (withTileCenter (mv.poiUpdate e).2 tile off) mv maxVD with
       | none =>
         ⟨PrePlacementResult.TooFar, none, withTileCenter (mv.poiUpdate e).2 tile off, cache⟩
       | some vd =>
         if (deduplicateElement cache (withTileCenter (mv.poiUpdate e).2 tile off) lastF).1
             = false then
           ⟨PrePlacementResult.Duplicate, none, withTileCenter (mv.poiUpdate e).2 tile off,
             (deduplicateElement cache (withTileCenter (mv.poiUpdate e).2 tile off) lastF).2⟩
         else
           ⟨PrePlacementResult.Ok, some vd, withTileCenter (mv.poiUpdate e).2 tile off,
             (deduplicateElement cache (withTileCenter (mv.poiUpdate e).2 tile off) lastF).2⟩) := by
  obtain ⟨h1, h2, h3, h4⟩ := h
  simp [checkReadyForPlacement, h1, h2, h3, h4]

/-! ## Claim theorems -/

/-- C9: for every input, the pair returned by `checkReadyForPlacement`
satisfies: the view distance is defined exactly when the result is `Ok`; in
particular it is discarded (undefined) on a `Duplicate` rejection and
undefined on `NotReady`, `Invisible` and `TooFar`. -/
theorem checkReadyForPlacement_viewDistance_iff_ok (ops : VecOps) (e : TextElement)
    (tile : Tile) (off : ℚ) (mv : MapViewM) (cache : DedupCache) (maxVD : Option ℚ)
    (lastF : Option ℕ) :
    (checkReadyForPlacement ops e tile off mv cache maxVD lastF).viewDistance ≠ none ↔
      (checkReadyForPlacement ops e tile off mv cache maxVD lastF).result
        = PrePlacementResult.Ok := by
  by_cases h1 : e.visible = false
  · rw [checkReady_of_invisible ops e tile off mv cache maxVD lastF h1]
    simp
  · have h1' : e.visible = true := by simpa using h1
    by_cases h2 : (mv.poiUpdate e).1 = false
    · rw [checkReady_of_notReady ops e tile off mv cache maxVD lastF h1' h2]
      simp
    · have h2' : (mv.poiUpdate e).1 = true := by simpa using h2
      by_cases h3 : (mv.poiUpdate e).2.visible = false
      · rw [checkReady_of_poiInvisible ops e tile off mv cache maxVD lastF h1' h2' (Or.inl h3)]
        simp
      · by_cases h4 : isClamped mv.zoomLevel (mv.poiUpdate e).2.minZoomLevel
            (mv.poiUpdate e).2.maxZoomLevel = false
        · rw [checkReady_of_poiInvisible ops e tile off mv cache maxVD lastF h1' h2' (Or.inr h4)]
          simp
        · have h3' : (mv.poiUpdate e).2.visible = true := by simpa using h3
          have h4' : isClamped mv.zoomLevel (mv.poiUpdate e).2.minZoomLevel
              (mv.poiUpdate e).2.maxZoomLevel = true := by simpa using h4
          rw [checkReady_of_reaches ops e tile off mv cache maxVD lastF ⟨h1', h2', h3', h4'⟩]
          cases hvd : preFilterViewDistance ops (withTileCenter (mv.poiUpdate e).2 tile off)
              mv maxVD
          · simp
          · by_cases hd : (deduplicateElement cache (withTileCenter (mv.poiUpdate e).2 tile off)
                lastF).1 = false
            · simp [hd]
            · simp [hd]

/-- C1: `checkReadyForPlacement` applies its rejection tests in the spec's
short-circuit order: an invisible candidate yields `Invisible`; otherwise a
not-yet-ready POI table yields `NotReady`; otherwise a post-POI visibility
flag of false or a zoom level outside `[minZoomLevel, maxZoomLevel]` yields
`Invisible`; only then are the distance check (`TooFar`) and the
deduplication check (`Duplicate`) performed, and if none rejects the result
is `Ok`. -/
theorem checkReadyForPlacement_rejection_order (ops : VecOps) (e : TextElement)
    (tile : Tile) (off : ℚ) (mv : MapViewM) (cache : DedupCache) (maxVD : Option ℚ)
    (lastF : Option ℕ) :
    (e.visible = false →
      (checkReadyForPlacement ops e tile off mv cache maxVD lastF).result
        = PrePlacementResult.Invisible) ∧
    (e.visible = true → (mv.poiUpdate e).1 = false →
      (checkReadyForPlacement ops e tile off mv cache maxVD lastF).result
        = PrePlacementResult.NotReady) ∧
    (e.visible = true → (mv.poiUpdate e).1 = true →
      ((mv.poiUpdate e).2.visible = false ∨
        isClamped mv.zoomLevel (mv.poiUpdate e).2.minZoomLevel (mv.poiUpdate e).2.maxZoomLevel
          = false) →
      (checkReadyForPlacement ops e tile off mv cache maxVD lastF).result
        = PrePlacementResult.Invisible) ∧
    (reachesDistanceCheck e mv →
      (preFilterViewDistance ops (withTileCenter (mv.poiUpdate e).2 tile off) mv maxVD = none →
        (checkReadyForPlacement ops e tile off mv cache maxVD lastF).result
          = PrePlacementResult.TooFar) ∧
      (∀ vd, preFilterViewDistance ops (withTileCenter (mv.poiUpdate e).2 tile off) mv maxVD
          = some vd →
        (deduplicateElement cache (withTileCenter (mv.poiUpdate e).2 tile off) lastF).1
            = false →
        (checkReadyForPlacement ops e tile off mv cache maxVD lastF).result
          = PrePlacementResult.Duplicate) ∧
      (∀ vd, preFilterViewDistance ops (withTileCenter (mv.poiUpdate e).2 tile off) mv maxVD
          = some vd →
        (deduplicateElement cache (withTileCenter (mv.poiUpdate e).2 tile off) lastF).1
            = true →
        (checkReadyForPlacement ops e tile off mv cache maxVD lastF).result
          = PrePlacementResult.Ok)) := by
  refine ⟨fun h1 => ?_, fun h1 h2 => ?_, fun h1 h2 h3 => ?_, fun hreach => ?_⟩
  · rw [checkReady_of_invisible ops e tile off mv cache maxVD lastF h1]
  · rw [checkReady_of_notReady ops e tile off mv cache maxVD lastF h1 h2]
  · rw [checkReady_of_poiInvisible ops e tile off mv cache maxVD lastF h1 h2 h3]
  · rw [checkReady_of_reaches ops e tile off mv cache maxVD lastF hreach]
    refine ⟨fun hvd => ?_, fun vd hvd hd => ?_, fun vd hvd hd => ?_⟩
    · rw [hvd]
    · rw [hvd]
      simp [hd]
    · rw [hvd]
      simp [hd]

/-- Witness for C1: a candidate whose visibility flag is off is rejected as
`Invisible` by `checkReadyForPlacement`. -/
theorem checkReadyForPlacement_rejection_order_witness :
    (checkReadyForPlacement sampleOps hiddenElement sampleTile 0 sampleView [] none none).result
      = PrePlacementResult.Invisible :=
  (checkReadyForPlacement_rejection_order sampleOps hiddenElement sampleTile 0 sampleView []
    none none).1 rfl

theorem checkReady_branches (ops : VecOps) (e : TextElement) (tile : Tile) (off : ℚ)
    (mv : MapViewM) (cache : DedupCache) (maxVD : Option ℚ) (lastF : Option ℕ) :
    (e.visible = false ∧
      checkReadyForPlacement ops e tile off mv cache maxVD lastF
        = ⟨PrePlacementResult.Invisible, none, e, cache⟩) ∨
    (e.visible = true ∧ (mv.poiUpdate e).1 = false ∧
      checkReadyForPlacement ops e tile off mv cache maxVD lastF
        = ⟨PrePlacementResult.NotReady, none, (mv.poiUpdate e).2, cache⟩) ∨
    (e.visible = true ∧ (mv.poiUpdate e).1 = true ∧
      ((mv.poiUpdate e).2.visible = false ∨
        isClamped mv.zoomLevel (mv.poiUpdate e).2.minZoomLevel (mv.poiUpdate e).2.maxZoomLevel
          = false) ∧
      checkReadyForPlacement ops e tile off mv cache maxVD lastF
        = ⟨PrePlacementResult.Invisible, none, (mv.poiUpdate e).2, cache⟩) ∨
    (reachesDistanceCheck e mv ∧
      preFilterViewDistance ops (withTileCenter (mv.poiUpdate e).2 tile off) mv maxVD = none ∧
      checkReadyForPlacement ops e tile off mv cache maxVD lastF
        = ⟨PrePlacementResult.TooFar, none, withTileCenter (mv.poiUpdate e).2 tile off, cache⟩) ∨
    (∃ vd, reachesDistanceCheck e mv ∧
      preFilterViewDistance ops (withTileCenter (mv.poiUpdate e).2 tile off) mv maxVD
        = some vd ∧
      (((deduplicateElement cache (withTileCenter (mv.poiUpdate e).2 tile off) lastF).1 = false ∧
        checkReadyForPlacement ops e tile off mv cache maxVD lastF
          = ⟨PrePlacementResult.Duplicate, none, withTileCenter (mv.poiUpdate e).2 tile off,
              (deduplicateElement cache (withTileCenter (mv.poiUpdate e).2 tile off) lastF).2⟩) ∨
       ((deduplicateElement cache (withTileCenter (mv.poiUpdate e).2 tile off) lastF).1 = true ∧
        checkReadyForPlacement ops e tile off mv cache maxVD lastF
          = ⟨PrePlacementResult.Ok, some vd, withTileCenter (mv.poiUpdate e).2 tile off,
              (deduplicateElement cache (withTileCenter (mv.poiUpdate e).2 tile off) lastF).2⟩))) := by
  by_cases h1 : e.visible = false
  · exact Or.inl ⟨h1, checkReady_of_invisible ops e tile off mv cache maxVD lastF h1⟩
  · have h1' : e.visible = true := by simpa using h1
    by_cases h2 : (mv.poiUpdate e).1 = false
    · exact Or.inr (Or.inl ⟨h1', h2,
        checkReady_of_notReady ops e tile off mv cache maxVD lastF h1' h2⟩)
    · have h2' : (mv.poiUpdate e).1 = true := by simpa using h2
      by_cases h3 : (mv.poiUpdate e).2.visible = false ∨
          isClamped mv.zoomLevel (mv.poiUpdate e).2.minZoomLevel (mv.poiUpdate e).2.maxZoomLevel
            = false
      · exact Or.inr (Or.inr (Or.inl ⟨h1', h2', h3,
          checkReady_of_poiInvisible ops e tile off mv cache maxVD lastF h1' h2' h3⟩))
      · have h3' : (mv.poiUpdate e).2.visible = true := by
          rcases not_or.mp h3 with ⟨hv, _⟩
          simpa using hv
        have h4' : isClamped mv.zoomLevel (mv.poiUpdate e).2.minZoomLevel
            (mv.poiUpdate e).2.maxZoomLevel = true := by
          rcases not_or.mp h3 with ⟨_, hc⟩
          simpa using hc
        have hreach : reachesDistanceCheck e mv := ⟨h1', h2', h3', h4'⟩
        have heq := checkReady_of_reaches ops e tile off mv cache maxVD lastF hreach
        cases hvd : preFilterViewDistance ops (withTileCenter (mv.poiUpdate e).2 tile off)
            mv maxVD with
        | none =>
          refine Or.inr (Or.inr (Or.inr (Or.inl ⟨hreach, rfl, ?_⟩)))
          rw [heq, hvd]
        | some vd =>
          refine Or.inr (Or.inr (Or.inr (Or.inr ⟨vd, hreach, rfl, ?_⟩)))
          by_cases hd : (deduplicateElement cache (withTileCenter (mv.poiUpdate e).2 tile off)
              lastF).1 = false
          · refine Or.inl ⟨hd, ?_⟩
            rw [heq, hvd]
            simp [hd]
          · have hd' : (deduplicateElement cache (withTileCenter (mv.poiUpdate e).2 tile off)
                lastF).1 = true := by simpa using hd
            refine Or.inr ⟨hd', ?_⟩
            rw [heq, hvd]
            simp [hd']

/-- C3: `computeViewDistance` returns, for a path-anchored candidate with
more than one point, the minimum of the distances from the reference
position to the path's first and last points (each offset by the candidate's
tile center); for a point-anchored candidate, the direct distance from the
reference position to the candidate's position offset by the tile center. -/
theorem computeViewDistance_cases (ops : VecOps) (ref c : V3) :
    (∀ (e : TextElement) (ps : List V3), e.points = TextPoints.path ps → 1 < ps.length →
      e.tileCenter = some c →
      computeViewDistance ops ref e =
        min (ops.distanceTo ref ((ps.headD V3.zero).add c))
            (ops.distanceTo ref ((ps.getLastD V3.zero).add c))) ∧
    (∀ (e : TextElement) (p : V3), e.points = TextPoints.single p → e.tileCenter = some c →
      computeViewDistance ops ref e = ops.distanceTo ref (p.add c)) := by
  constructor
  · intro e ps hp hlen hc
    simp [computeViewDistance, hp, hlen, TextElement.tileCenterD, hc]
  · intro e p hp hc
    simp [computeViewDistance, hp, TextElement.position, TextElement.tileCenterD, hc]

/-- Witness for C3: the path label with points `(0,0,0)` and `(4,0,0)` and
tile center `(1,0,0)` gets the minimum of the two endpoint distances. -/
theorem computeViewDistance_cases_witness :
    computeViewDistance sampleOps V3.zero samplePathElement =
      min (sampleOps.distanceTo V3.zero
            ((([⟨0, 0, 0⟩, ⟨4, 0, 0⟩] : List V3).headD V3.zero).add ⟨1, 0, 0⟩))
          (sampleOps.distanceTo V3.zero
            ((([⟨0, 0, 0⟩, ⟨4, 0, 0⟩] : List V3).getLastD V3.zero).add ⟨1, 0, 0⟩)) :=
  (computeViewDistance_cases sampleOps V3.zero ⟨1, 0, 0⟩).1 samplePathElement
    [⟨0, 0, 0⟩, ⟨4, 0, 0⟩] rfl (by decide) rfl

/-- C4: `checkReadyForPlacement` returns `TooFar` only when a maximum view
distance is supplied: with `maxViewDistance` undefined the result is never
`TooFar`; when the candidate reaches the distance check, `TooFar` holds
exactly when the distance stage yields no distance, and under a non-spherical
projection with a supplied threshold exactly when the computed view distance
strictly exceeds the threshold (a distance equal to the threshold is not
rejected). -/
theorem checkReadyForPlacement_tooFar_condition (ops : VecOps) (e : TextElement)
    (tile : Tile) (off : ℚ) (mv : MapViewM) (cache : DedupCache) (maxVD : Option ℚ)
    (lastF : Option ℕ) :
    (maxVD = none →
      (checkReadyForPlacement ops e tile off mv cache maxVD lastF).result
        ≠ PrePlacementResult.TooFar) ∧
    (reachesDistanceCheck e mv →
      ((checkReadyForPlacement ops e tile off mv cache maxVD lastF).result
          = PrePlacementResult.TooFar ↔
        preFilterViewDistance ops (withTileCenter (mv.poiUpdate e).2 tile off) mv maxVD
          = none)) ∧
    (∀ m, maxVD = some m → mv.projectionType ≠ ProjectionType.Spherical →
      reachesDistanceCheck e mv →
      ((checkReadyForPlacement ops e tile off mv cache maxVD lastF).result
          = PrePlacementResult.TooFar ↔
        m < computeViewDistance ops mv.worldCenter (withTileCenter (mv.poiUpdate e).2 tile off)))
    := by
  have hiff : reachesDistanceCheck e mv →
      ((checkReadyForPlacement ops e tile off mv cache maxVD lastF).result
          = PrePlacementResult.TooFar ↔
        preFilterViewDistance ops (withTileCenter (mv.poiUpdate e).2 tile off) mv maxVD
          = none) := by
    intro hreach
    rw [checkReady_of_reaches ops e tile off mv cache maxVD lastF hreach]
    cases hvd : preFilterViewDistance ops (withTileCenter (mv.poiUpdate e).2 tile off) mv maxVD
      with
    | none => simp
    | some vd =>
      by_cases hd : (deduplicateElement cache (withTileCenter (mv.poiUpdate e).2 tile off)
          lastF).1 = false
      · simp [hd]
      · simp [hd]
  refine ⟨?_, hiff, ?_⟩
  · intro hnone
    subst hnone
    rcases checkReady_branches ops e tile off mv cache none lastF with
      ⟨_, heq⟩ | ⟨_, _, heq⟩ | ⟨_, _, _, heq⟩ | ⟨_, hpf, _⟩ | ⟨vd, _, _, ⟨_, heq⟩ | ⟨_, heq⟩⟩
    · rw [heq]; simp
    · rw [heq]; simp
    · rw [heq]; simp
    · simp [preFilterViewDistance] at hpf
    · rw [heq]; simp
    · rw [heq]; simp
  · intro m hm hplanar hreach
    subst hm
    rw [hiff hreach]
    simp only [preFilterViewDistance]
    by_cases hle : computeViewDistance ops mv.worldCenter
        (withTileCenter (mv.poiUpdate e).2 tile off) ≤ m
    · have hcvd : checkViewDistance ops (withTileCenter (mv.poiUpdate e).2 tile off) mv m
          = some (computeViewDistance ops mv.worldCenter
              (withTileCenter (mv.poiUpdate e).2 tile off)) := by
        simp [checkViewDistance, hplanar, hle]
      rw [hcvd]
      simp [not_lt.mpr hle]
    · have hcvd : checkViewDistance ops (withTileCenter (mv.poiUpdate e).2 tile off) mv m
          = none := by
        simp [checkViewDistance, hplanar, hle]
      rw [hcvd]
      simp [not_le.mp hle]

/-- Witness for C4: under the planar sample view, a candidate at view
distance 3 with threshold 1 is rejected as `TooFar`. -/
theorem checkReadyForPlacement_tooFar_condition_witness :
    (checkReadyForPlacement sampleOps sampleElement sampleTile 0 sampleView [] (some 1)
      none).result = PrePlacementResult.TooFar :=
  ((checkReadyForPlacement_tooFar_condition sampleOps sampleElement sampleTile 0 sampleView []
    (some 1) none).2.2 1 rfl (by decide) ⟨rfl, rfl, rfl, rfl⟩).mpr
    (by norm_num [computeViewDistance, sampleOps, withTileCenter, sampleElement, sampleView,
      sampleTile, TextElement.position, TextElement.tileCenterD, V3.add, V3.zero])

/-- C5: under spherical projection with a supplied maximum view distance, a
candidate that reaches the distance check passes it (result not `TooFar`)
exactly when its view distance does not exceed the threshold and the dot
product of its normalized world position with the camera's forward direction
is below the fixed threshold `-0.6`; if either condition fails the result is
`TooFar`. -/
theorem checkViewDistance_spherical_condition (ops : VecOps) (e : TextElement) (tile : Tile)
    (off : ℚ) (mv : MapViewM) (cache : DedupCache) (m : ℚ) (lastF : Option ℕ)
    (hsph : mv.projectionType = ProjectionType.Spherical)
    (hreach : reachesDistanceCheck e mv) :
    (checkReadyForPlacement ops e tile off mv cache (some m) lastF).result
        ≠ PrePlacementResult.TooFar ↔
      computeViewDistance ops mv.worldCenter (withTileCenter (mv.poiUpdate e).2 tile off) ≤ m ∧
      (ops.normalize (((withTileCenter (mv.poiUpdate e).2 tile off).position).add
          ((withTileCenter (mv.poiUpdate e).2 tile off).tileCenterD))).dot mv.cameraDir
        < -(0.6 : ℚ) := by
  rw [checkReady_of_reaches ops e tile off mv cache (some m) lastF hreach]
  simp only [preFilterViewDistance]
  by_cases hc : (ops.normalize (((withTileCenter (mv.poiUpdate e).2 tile off).position).add
      ((withTileCenter (mv.poiUpdate e).2 tile off).tileCenterD))).dot mv.cameraDir
        < -(0.6 : ℚ) ∧
      computeViewDistance ops mv.worldCenter (withTileCenter (mv.poiUpdate e).2 tile off) ≤ m
  · have hcvd : checkViewDistance ops (withTileCenter (mv.poiUpdate e).2 tile off) mv m
        = some (computeViewDistance ops mv.worldCenter
            (withTileCenter (mv.poiUpdate e).2 tile off)) := by
      simp only [checkViewDistance, hsph]
      simp [hc]
    rw [hcvd]
    by_cases hd : (deduplicateElement cache (withTileCenter (mv.poiUpdate e).2 tile off)
        lastF).1 = false
    · simp only [hd]
      simp [hc.2, hc.1]
    · simp only [hd]
      simp [hd, hc.2, hc.1]
  · have hcvd : checkViewDistance ops (withTileCenter (mv.poiUpdate e).2 tile off) mv m
        = none := by
      simp only [checkViewDistance, hsph]
      simp [hc]
    rw [hcvd]
    constructor
    · intro habs
      exact absurd rfl habs
    · intro hrhs
      exact absurd ⟨hrhs.2, hrhs.1⟩ hc

/-- Witness for C5: under the spherical sample view, the pole element (view
distance 1 ≤ 5, dot product -1 < -0.6) is not rejected as `TooFar`. -/
theorem checkViewDistance_spherical_condition_witness :
    (checkReadyForPlacement sampleOps poleElement sampleTile 0 sphereView [] (some 5)
      none).result ≠ PrePlacementResult.TooFar :=
  (checkViewDistance_spherical_condition sampleOps poleElement sampleTile 0 sphereView [] 5
    none rfl ⟨rfl, rfl, rfl, rfl⟩).mpr
    (by constructor
        · norm_num [computeViewDistance, sampleOps, withTileCenter, poleElement, sphereView,
            sampleTile, TextElement.position, TextElement.tileCenterD, V3.add, V3.zero]
        · norm_num [sampleOps, withTileCenter, poleElement, sphereView, sampleTile,
            TextElement.position, TextElement.tileCenterD, V3.add, V3.dot, V3.zero])

/-- C8 (amended): `checkReadyForPlacement` takes the tile by value and
returns it unchanged by construction; the only field it writes itself is the
candidate's transient `tileCenter` cache. On the pre-POI `Invisible` return
the candidate is unchanged; on `NotReady` and on the post-POI `Invisible`
return the candidate is exactly as `updatePoiFromPoiTable` left it; whenever
execution reaches the distance check (result `Ok`, `TooFar` or `Duplicate`)
the candidate is as POI resolution left it except that its `tileCenter`
equals `(tile.center.x + worldOffsetX, tile.center.y, tile.center.z)`. -/
theorem checkReadyForPlacement_writes (ops : VecOps) (e : TextElement) (tile : Tile)
    (off : ℚ) (mv : MapViewM) (cache : DedupCache) (maxVD : Option ℚ) (lastF : Option ℕ) :
    (e.visible = false →
      (checkReadyForPlacement ops e tile off mv cache maxVD lastF).element = e) ∧
    (e.visible = true → (mv.poiUpdate e).1 = false →
      (checkReadyForPlacement ops e tile off mv cache maxVD lastF).element
        = (mv.poiUpdate e).2) ∧
    (e.visible = true → (mv.poiUpdate e).1 = true →
      ((mv.poiUpdate e).2.visible = false ∨
        isClamped mv.zoomLevel (mv.poiUpdate e).2.minZoomLevel (mv.poiUpdate e).2.maxZoomLevel
          = false) →
      (checkReadyForPlacement ops e tile off mv cache maxVD lastF).element
        = (mv.poiUpdate e).2) ∧
    (reachesDistanceCheck e mv →
      (checkReadyForPlacement ops e tile off mv cache maxVD lastF).element
          = withTileCenter (mv.poiUpdate e).2 tile off ∧
      (checkReadyForPlacement ops e tile off mv cache maxVD lastF).element.tileCenter
          = some ⟨tile.center.x + off, tile.center.y, tile.center.z⟩) := by
  refine ⟨fun h1 => ?_, fun h1 h2 => ?_, fun h1 h2 h3 => ?_, fun hreach => ?_⟩
  · rw [checkReady_of_invisible ops e tile off mv cache maxVD lastF h1]
  · rw [checkReady_of_notReady ops e tile off mv cache maxVD lastF h1 h2]
  · rw [checkReady_of_poiInvisible ops e tile off mv cache maxVD lastF h1 h2 h3]
  · rw [checkReady_of_reaches ops e tile off mv cache maxVD lastF hreach]
    constructor
    · split
      · rfl
      · split <;> rfl
    · split
      · rfl
      · split <;> rfl

/-- Witness for C8 (amended): for a candidate that reaches the distance
check, the tile-center cache is refreshed to the tile center shifted by the
world offset. -/
theorem checkReadyForPlacement_writes_witness :
    (checkReadyForPlacement sampleOps sampleElement sampleTile 2 sampleView [] none
      none).element.tileCenter
      = some ⟨sampleTile.center.x + 2, sampleTile.center.y, sampleTile.center.z⟩ :=
  ((checkReadyForPlacement_writes sampleOps sampleElement sampleTile 2 sampleView [] none
    none).2.2.2 ⟨rfl, rfl, rfl, rfl⟩).2

/-- Counterexample for C8 as stated: with a POI resolution that reports
ready but switches the candidate invisible (an update the source comment to
`updatePoiFromPoiTable` warrants), `checkReadyForPlacement` returns
`Invisible` with the candidate changed, contradicting that on an `Invisible`
result the candidate is left entirely unchanged. -/
theorem checkReadyForPlacement_mutates_on_poi_invisible :
    (checkReadyForPlacement sampleOps sampleElement sampleTile 0 poiHidingView [] none
      none).result = PrePlacementResult.Invisible ∧
    (checkReadyForPlacement sampleOps sampleElement sampleTile 0 poiHidingView [] none
      none).element ≠ sampleElement := by
  have heq := checkReady_of_poiInvisible sampleOps sampleElement sampleTile 0 poiHidingView []
    none none rfl rfl (Or.inl rfl)
  rw [heq]
  refine ⟨rfl, ?_⟩
  simp [poiHidingView, sampleElement]

/-- C10: under exact arithmetic, `OmvUtils.tile2world` and
`OmvUtils.world2tile` are mutual inverses for every cookie with nonzero
scale, every nonzero equatorial circumference, every flipY flag and every 2D
position (for actual cookies the scale is a positive power of two and `R` is
the Earth's circumference, so both hypotheses hold). -/
theorem tile2world_world2tile_inverse (cookie : WorldTileProjectionCookie) (p : V2)
    (flipY : Bool) (R : ℚ) (hs : cookie.scale ≠ 0) (hR : R ≠ 0) :
    OmvUtils.world2tile cookie (OmvUtils.tile2world cookie p flipY R) flipY R = p ∧
    OmvUtils.tile2world cookie (OmvUtils.world2tile cookie p flipY R) flipY R = p := by
  obtain ⟨px, py⟩ := p
  refine ⟨?_, ?_⟩ <;> cases flipY <;>
    · simp only [OmvUtils.tile2world, OmvUtils.world2tile, if_true, if_false,
        Bool.false_eq_true, V2.mk.injEq]
      constructor <;> field_simp <;> ring

/-- Witness for C10: the round trips evaluated at a concrete cookie,
position, flip flag and circumference. -/
theorem tile2world_world2tile_inverse_witness :
    OmvUtils.world2tile ⟨4096, 5, 7, 1024⟩
        (OmvUtils.tile2world ⟨4096, 5, 7, 1024⟩ ⟨3, 11⟩ true 6) true 6 = ⟨3, 11⟩ ∧
    OmvUtils.tile2world ⟨4096, 5, 7, 1024⟩
        (OmvUtils.world2tile ⟨4096, 5, 7, 1024⟩ ⟨3, 11⟩ true 6) true 6 = ⟨3, 11⟩ :=
  tile2world_world2tile_inverse ⟨4096, 5, 7, 1024⟩ ⟨3, 11⟩ true 6 (by norm_num) (by norm_num)

/-- C7: for every tracked label, the opacity produced by a fade update lies
in `[0, 1]`; opacity strictly increases with advancing time while the label
is FadingIn and strictly decreases while it is FadingOut; and it reaches
exactly 1 (phase Steady) respectively exactly 0 (phase Gone) once the
nominal fade duration has elapsed. -/
theorem fade_monotone_bounded (s : FadeState) (D t t1 t2 : ℚ) (hD : 0 < D) :
    (0 ≤ s.opacity → s.opacity ≤ 1 →
      0 ≤ (updateFading s t D).opacity ∧ (updateFading s t D).opacity ≤ 1) ∧
    (s.value = FadingState.FadingIn → 0 ≤ s.startOpacity → s.fadeStart ≤ t1 → t1 < t2 →
      (updateFading s t2 D).value = FadingState.FadingIn →
      (updateFading s t1 D).opacity < (updateFading s t2 D).opacity) ∧
    (s.value = FadingState.FadingOut → s.startOpacity ≤ 1 → s.fadeStart ≤ t1 → t1 < t2 →
      (updateFading s t2 D).value = FadingState.FadingOut →
      (updateFading s t2 D).opacity < (updateFading s t1 D).opacity) ∧
    (s.value = FadingState.FadingIn → 0 ≤ s.startOpacity → s.fadeStart + D ≤ t →
      (updateFading s t D).value = FadingState.Steady ∧ (updateFading s t D).opacity = 1) ∧
    (s.value = FadingState.FadingOut → s.startOpacity ≤ 1 → s.fadeStart + D ≤ t →
      (updateFading s t D).value = FadingState.Gone ∧ (updateFading s t D).opacity = 0) := by
  refine ⟨?_, ?_, ?_, ?_, ?_⟩
  · intro h0 h1
    cases hv : s.value <;> simp only [updateFading, hv]
    · exact ⟨h0, h1⟩
    · split
      · exact ⟨zero_le_one, le_refl 1⟩
      · rename_i hlt
        constructor
        · exact le_max_left 0 _
        · exact max_le (by norm_num) (le_of_lt (not_le.mp hlt))
    · exact ⟨h0, h1⟩
    · split
      · exact ⟨le_refl 0, zero_le_one⟩
      · rename_i hgt
        constructor
        · exact le_min (by norm_num) (le_of_lt (not_le.mp hgt))
        · exact min_le_left 1 _
    · exact ⟨h0, h1⟩
  · intro hv hstart ht1 hlt hfi2
    have ho2 : ¬(1 ≤ s.startOpacity + (t2 - s.fadeStart) / D) := by
      intro hc
      simp [updateFading, hv, hc] at hfi2
    have hdivlt : (t1 - s.fadeStart) / D < (t2 - s.fadeStart) / D := by
      apply div_lt_div_of_pos_right ?_ hD
      linarith
    have ho1o2 : s.startOpacity + (t1 - s.fadeStart) / D
        < s.startOpacity + (t2 - s.fadeStart) / D := by linarith
    have ho1 : ¬(1 ≤ s.startOpacity + (t1 - s.fadeStart) / D) := by
      intro hc
      exact ho2 (le_of_lt (lt_of_le_of_lt hc ho1o2))
    have ho2pos : 0 < s.startOpacity + (t2 - s.fadeStart) / D := by
      have : 0 < (t2 - s.fadeStart) / D := div_pos (by linarith) hD
      linarith
    simp only [updateFading, hv, if_neg ho1, if_neg ho2]
    calc max 0 (s.startOpacity + (t1 - s.fadeStart) / D)
        < s.startOpacity + (t2 - s.fadeStart) / D := max_lt ho2pos ho1o2
      _ ≤ max 0 (s.startOpacity + (t2 - s.fadeStart) / D) := le_max_right 0 _
  · intro hv hstart ht1 hlt hfo2
    have ho2 : ¬(s.startOpacity - (t2 - s.fadeStart) / D ≤ 0) := by
      intro hc
      simp [updateFading, hv, hc] at hfo2
    have hdivlt : (t1 - s.fadeStart) / D < (t2 - s.fadeStart) / D := by
      apply div_lt_div_of_pos_right ?_ hD
      linarith
    have ho2o1 : s.startOpacity - (t2 - s.fadeStart) / D
        < s.startOpacity - (t1 - s.fadeStart) / D := by linarith
    have ho1 : ¬(s.startOpacity - (t1 - s.fadeStart) / D ≤ 0) := by
      intro hc
      exact ho2 (le_of_lt (lt_of_lt_of_le ho2o1 hc))
    have ho2lt1 : s.startOpacity - (t2 - s.fadeStart) / D < 1 := by
      have : 0 < (t2 - s.fadeStart) / D := div_pos (by linarith) hD
      linarith
    simp only [updateFading, hv, if_neg ho1, if_neg ho2]
    calc min 1 (s.startOpacity - (t2 - s.fadeStart) / D)
        ≤ s.startOpacity - (t2 - s.fadeStart) / D := min_le_right 1 _
      _ < min 1 (s.startOpacity - (t1 - s.fadeStart) / D) := lt_min ho2lt1 ho2o1
  · intro hv hstart ht
    have h1 : 1 ≤ s.startOpacity + (t - s.fadeStart) / D := by
      have : (1 : ℚ) ≤ (t - s.fadeStart) / D := (one_le_div hD).mpr (by linarith)
      linarith
    simp [updateFading, hv, h1]
  · intro hv hstart ht
    have h0 : s.startOpacity - (t - s.fadeStart) / D ≤ 0 := by
      have : (1 : ℚ) ≤ (t - s.fadeStart) / D := (one_le_div hD).mpr (by linarith)
      linarith
    simp [updateFading, hv, h0]

/-- Witness for C7: a fading-in state with fade start 1 and duration 6 has
strictly increasing opacity between times 3 and 4. -/
theorem fade_monotone_bounded_witness :
    (updateFading ⟨FadingState.FadingIn, 0, 0, 1⟩ 3 6).opacity
      < (updateFading ⟨FadingState.FadingIn, 0, 0, 1⟩ 4 6).opacity :=
  (fade_monotone_bounded ⟨FadingState.FadingIn, 0, 0, 1⟩ 6 7 3 4 (by norm_num)).2.1 rfl
    (by norm_num) (by norm_num) (by norm_num)
    (by norm_num [updateFading])

/-- C6: a continuously placeable point label with fade duration `D`, driven
at clock times 0 (ignored, the value 0 being reserved as uninitialized), 1,
`1 + D/3`, `1 + D/2` and `1 + D`, is rendered with opacity 0 at the frame at
time 1, with strictly increasing positive opacities at times `1 + D/3` and
`1 + D/2`, and with opacity exactly 1 at time `1 + D`. -/
theorem fade_in_scenario (D : ℚ) (hD : 0 < D) :
    placeFrame FadeState.initial D 0 = FadeState.initial ∧
    (placeFrames D FadeState.initial [0, 1]).opacity = 0 ∧
    0 < (placeFrames D FadeState.initial [0, 1, 1 + D / 3]).opacity ∧
    (placeFrames D FadeState.initial [0, 1, 1 + D / 3]).opacity
      < (placeFrames D FadeState.initial [0, 1, 1 + D / 3, 1 + D / 2]).opacity ∧
    (placeFrames D FadeState.initial [0, 1, 1 + D / 3, 1 + D / 2, 1 + D]).opacity = 1 := by
  have hDne : D ≠ 0 := ne_of_gt hD
  have ht3 : (1 + D / 3 : ℚ) ≠ 0 := by
    have : (0 : ℚ) < D / 3 := div_pos hD (by norm_num)
    intro hc
    linarith
  have ht2 : (1 + D / 2 : ℚ) ≠ 0 := by
    have : (0 : ℚ) < D / 2 := div_pos hD (by norm_num)
    intro hc
    linarith
  have htD : (1 + D : ℚ) ≠ 0 := by
    intro hc
    linarith
  have hA : placeFrame FadeState.initial D 0 = FadeState.initial := by
    simp [placeFrame]
  have hB : placeFrame FadeState.initial D 1 = ⟨FadingState.FadingIn, 0, 0, 1⟩ := by
    norm_num [placeFrame, startFadeIn, updateFading, FadeState.initial]
  have hq3 : (1 + D / 3 - 1) / D = (1 / 3 : ℚ) := by
    rw [show (1 + D / 3 - 1 : ℚ) = D / 3 by ring]
    field_simp
    ring
  have hq2 : (1 + D / 2 - 1) / D = (1 / 2 : ℚ) := by
    rw [show (1 + D / 2 - 1 : ℚ) = D / 2 by ring]
    field_simp
    ring
  have hqD : (1 + D - 1) / D = (1 : ℚ) := by
    rw [show (1 + D - 1 : ℚ) = D by ring]
    exact div_self hDne
  have hC : placeFrame ⟨FadingState.FadingIn, 0, 0, 1⟩ D (1 + D / 3)
      = ⟨FadingState.FadingIn, 1 / 3, 0, 1⟩ := by
    rw [placeFrame, if_neg ht3]
    simp only [startFadeIn, updateFading, hq3]
    norm_num
  have hD2 : placeFrame ⟨FadingState.FadingIn, 1 / 3, 0, 1⟩ D (1 + D / 2)
      = ⟨FadingState.FadingIn, 1 / 2, 0, 1⟩ := by
    rw [placeFrame, if_neg ht2]
    simp only [startFadeIn, updateFading, hq2]
    norm_num
  have hE : placeFrame ⟨FadingState.FadingIn, 1 / 2, 0, 1⟩ D (1 + D)
      = ⟨FadingState.Steady, 1, 0, 1⟩ := by
    rw [placeFrame, if_neg htD]
    simp only [startFadeIn, updateFading, hqD]
    norm_num
  refine ⟨hA, ?_, ?_, ?_, ?_⟩ <;>
    simp only [placeFrames, hA, hB, hC, hD2, hE] <;> norm_num

/-- Witness for C6: the fade-in scenario evaluated at fade duration 600. -/
theorem fade_in_scenario_witness :
    (placeFrames 600 FadeState.initial [0, 1, 1 + 600 / 3, 1 + 600 / 2, 1 + 600]).opacity
      = 1 :=
  (fade_in_scenario 600 (by norm_num)).2.2.2.2

/-! ## Support lemmas for the deduplication invariant (C2) -/

theorem dedupLookup_cons (k' : ℕ) (p' : ℤ) (cache : DedupCache) (k : ℕ) :
    dedupLookup ((k', p') :: cache) k
      = if k' = k then some (k', p') else dedupLookup cache k := by
  by_cases h : k' = k <;> simp [dedupLookup, List.find?_cons, h]

theorem dedupLookup_fst (cache : DedupCache) (k : ℕ) (ent : ℕ × ℤ)
    (h : dedupLookup cache k = some ent) : ent.1 = k := by
  have := List.find?_some h
  simpa using this

theorem deduplicateElement_false_cache (cache : DedupCache) (e : TextElement)
    (lf : Option ℕ) (h : (deduplicateElement cache e lf).1 = false) :
    (deduplicateElement cache e lf).2 = cache := by
  unfold deduplicateElement at h ⊢
  cases hl : dedupLookup cache e.dedupKey with
  | none =>
    rw [hl] at h
    simp at h
  | some ent =>
    rw [hl] at h
    by_cases hp : e.priority ≤ ent.2
    · simp [hp]
    · simp [hp] at h

theorem deduplicateElement_true_cache (cache : DedupCache) (e : TextElement)
    (lf : Option ℕ) (h : (deduplicateElement cache e lf).1 = true) :
    (deduplicateElement cache e lf).2 = (e.dedupKey, e.priority) :: cache := by
  unfold deduplicateElement at h ⊢
  cases hl : dedupLookup cache e.dedupKey with
  | none => simp
  | some ent =>
    rw [hl] at h
    by_cases hp : e.priority ≤ ent.2
    · simp [hp] at h
    · simp [hp]

theorem checkReady_cache_shape (ops : VecOps) (e : TextElement) (tile : Tile) (off : ℚ)
    (mv : MapViewM) (cache : DedupCache) (maxVD : Option ℚ) (lastF : Option ℕ) :
    (checkReadyForPlacement ops e tile off mv cache maxVD lastF).cache = cache ∨
    (checkReadyForPlacement ops e tile off mv cache maxVD lastF).cache
      = ((mv.poiUpdate e).2.dedupKey, (mv.poiUpdate e).2.priority) :: cache := by
  rcases checkReady_branches ops e tile off mv cache maxVD lastF with
    ⟨_, heq⟩ | ⟨_, _, heq⟩ | ⟨_, _, _, heq⟩ | ⟨_, _, heq⟩ |
    ⟨vd, _, _, ⟨hd, heq⟩ | ⟨hd, heq⟩⟩
  · left; rw [heq]
  · left; rw [heq]
  · left; rw [heq]
  · left; rw [heq]
  · left
    rw [heq]
    exact deduplicateElement_false_cache cache _ lastF hd
  · right
    rw [heq]
    simp only
    rw [deduplicateElement_true_cache cache _ lastF hd]
    rfl

theorem checkReady_reaches_of_pass (ops : VecOps) (x : TextElement) (tile : Tile) (off : ℚ)
    (mv : MapViewM) (maxVD : Option ℚ)
    (hpoi : mv.poiUpdate x = (true, x))
    (hpx : passesPreChecks ops x tile off mv maxVD) :
    reachesDistanceCheck x mv := by
  have h1 : (mv.poiUpdate x).1 = true := by rw [hpoi]
  have h2 : (mv.poiUpdate x).2.visible = true := by rw [hpoi]; exact hpx.1
  have h3 : isClamped mv.zoomLevel (mv.poiUpdate x).2.minZoomLevel
      (mv.poiUpdate x).2.maxZoomLevel = true := by rw [hpoi]; exact hpx.2.1
  exact ⟨hpx.1, h1, h2, h3⟩

theorem checkReady_ok_of_new (ops : VecOps) (x : TextElement) (tile : Tile) (off : ℚ)
    (mv : MapViewM) (cache : DedupCache) (maxVD : Option ℚ) (lastF : Option ℕ)
    (hpoi : mv.poiUpdate x = (true, x))
    (hpx : passesPreChecks ops x tile off mv maxVD)
    (hlook : dedupLookup cache x.dedupKey = none) :
    ∃ vd, checkReadyForPlacement ops x tile off mv cache maxVD lastF
      = ⟨PrePlacementResult.Ok, some vd, withTileCenter x tile off,
          (x.dedupKey, x.priority) :: cache⟩ := by
  have hreach := checkReady_reaches_of_pass ops x tile off mv maxVD hpoi hpx
  rw [checkReady_of_reaches ops x tile off mv cache maxVD lastF hreach, hpoi]
  cases hvd : preFilterViewDistance ops (withTileCenter x tile off) mv maxVD with
  | none => exact absurd hvd hpx.2.2
  | some vd =>
    have hded : deduplicateElement cache (withTileCenter x tile off) lastF
        = (true, (x.dedupKey, x.priority) :: cache) := by
      simp [deduplicateElement, withTileCenter, hlook]
    refine ⟨vd, ?_⟩
    rw [hded]
    rfl

theorem checkReady_dup_of_entry (ops : VecOps) (x : TextElement) (tile : Tile) (off : ℚ)
    (mv : MapViewM) (cache : DedupCache) (maxVD : Option ℚ) (lastF : Option ℕ)
    (hpoi : mv.poiUpdate x = (true, x))
    (hpx : passesPreChecks ops x tile off mv maxVD)
    (ent : ℕ × ℤ)
    (hlook : dedupLookup cache x.dedupKey = some ent)
    (hple : x.priority ≤ ent.2) :
    checkReadyForPlacement ops x tile off mv cache maxVD lastF
      = ⟨PrePlacementResult.Duplicate, none, withTileCenter x tile off, cache⟩ := by
  have hreach := checkReady_reaches_of_pass ops x tile off mv maxVD hpoi hpx
  rw [checkReady_of_reaches ops x tile off mv cache maxVD lastF hreach, hpoi]
  cases hvd : preFilterViewDistance ops (withTileCenter x tile off) mv maxVD with
  | none => exact absurd hvd hpx.2.2
  | some vd =>
    have hded : deduplicateElement cache (withTileCenter x tile off) lastF
        = (false, cache) := by
      simp [deduplicateElement, withTileCenter, hlook, hple]
    rw [hded]
    rfl

theorem dedupLookup_checkReady_preserve (ops : VecOps) (x : TextElement) (tile : Tile)
    (off : ℚ) (mv : MapViewM) (cache : DedupCache) (maxVD : Option ℚ) (lastF : Option ℕ)
    (k : ℕ) (hne : (mv.poiUpdate x).2.dedupKey ≠ k) :
    dedupLookup (checkReadyForPlacement ops x tile off mv cache maxVD lastF).cache k
      = dedupLookup cache k := by
  rcases checkReady_cache_shape ops x tile off mv cache maxVD lastF with hc | hc
  · rw [hc]
  · rw [hc, dedupLookup_cons, if_neg hne]

theorem placeCandidates_cons (ops : VecOps) (tile : Tile) (off : ℚ) (mv : MapViewM)
    (maxVD : Option ℚ) (lastF : Option ℕ) (x : TextElement) (xs : List TextElement)
    (cache : DedupCache) :
    placeCandidates ops tile off mv maxVD lastF (x :: xs) cache
      = (checkReadyForPlacement ops x tile off mv cache maxVD lastF).result ::
        placeCandidates ops tile off mv maxVD lastF xs
          (checkReadyForPlacement ops x tile off mv cache maxVD lastF).cache := rfl

theorem placeCache_cons (ops : VecOps) (tile : Tile) (off : ℚ) (mv : MapViewM)
    (maxVD : Option ℚ) (lastF : Option ℕ) (x : TextElement) (xs : List TextElement)
    (cache : DedupCache) :
    placeCache ops tile off mv maxVD lastF (x :: xs) cache
      = placeCache ops tile off mv maxVD lastF xs
          (checkReadyForPlacement ops x tile off mv cache maxVD lastF).cache := rfl

theorem placeCandidates_append (ops : VecOps) (tile : Tile) (off : ℚ) (mv : MapViewM)
    (maxVD : Option ℚ) (lastF : Option ℕ) (xs ys : List TextElement) (cache : DedupCache) :
    placeCandidates ops tile off mv maxVD lastF (xs ++ ys) cache
      = placeCandidates ops tile off mv maxVD lastF xs cache
        ++ placeCandidates ops tile off mv maxVD lastF ys
            (placeCache ops tile off mv maxVD lastF xs cache) := by
  induction xs generalizing cache with
  | nil => rfl
  | cons x xs ih =>
    rw [List.cons_append, placeCandidates_cons, placeCandidates_cons, placeCache_cons, ih,
      List.cons_append]

theorem placeCandidates_length (ops : VecOps) (tile : Tile) (off : ℚ) (mv : MapViewM)
    (maxVD : Option ℚ) (lastF : Option ℕ) (xs : List TextElement) (cache : DedupCache) :
    (placeCandidates ops tile off mv maxVD lastF xs cache).length = xs.length := by
  induction xs generalizing cache with
  | nil => rfl
  | cons x xs ih => rw [placeCandidates_cons, List.length_cons, ih, List.length_cons]

theorem placeCache_preserve (ops : VecOps) (tile : Tile) (off : ℚ) (mv : MapViewM)
    (maxVD : Option ℚ) (lastF : Option ℕ) (k : ℕ) (xs : List TextElement)
    (cache : DedupCache)
    (hne : ∀ x ∈ xs, (mv.poiUpdate x).2.dedupKey ≠ k) :
    dedupLookup (placeCache ops tile off mv maxVD lastF xs cache) k
      = dedupLookup cache k := by
  induction xs generalizing cache with
  | nil => rfl
  | cons x xs ih =>
    rw [placeCache_cons, ih _ (fun y hy => hne y (List.mem_cons_of_mem x hy)),
      dedupLookup_checkReady_preserve ops x tile off mv cache maxVD lastF k
        (hne x (List.mem_cons_self x xs))]

theorem placeCandidates_post_dup (ops : VecOps) (tile : Tile) (off : ℚ) (mv : MapViewM)
    (maxVD : Option ℚ) (lastF : Option ℕ) (k : ℕ) (pb : ℤ)
    (hpoi : ∀ x, mv.poiUpdate x = (true, x)) :
    ∀ (post : List TextElement) (cache : DedupCache),
      (∃ p, dedupLookup cache k = some (k, p) ∧ pb ≤ p) →
      (∀ x ∈ post, x.priority ≤ pb) →
      (∀ x ∈ post, x.dedupKey = k → passesPreChecks ops x tile off mv maxVD) →
      ∀ j (hj : j < post.length), (post.get ⟨j, hj⟩).dedupKey = k →
        (placeCandidates ops tile off mv maxVD lastF post cache)[j]?
          = some PrePlacementResult.Duplicate := by
  intro post
  induction post with
  | nil =>
    intro cache _ _ _ j hj
    exact absurd hj (by simp)
  | cons x rest ih =>
    intro cache hinv hprio hpass j hj hkey
    obtain ⟨p, hlook, hpb⟩ := hinv
    by_cases hxk : x.dedupKey = k
    · have hpx := hpass x (List.mem_cons_self x rest) hxk
      have hlookx : dedupLookup cache x.dedupKey = some (k, p) := by rw [hxk, hlook]
      have hple : x.priority ≤ (k, p).2 :=
        le_trans (hprio x (List.mem_cons_self x rest)) hpb
      have heq := checkReady_dup_of_entry ops x tile off mv cache maxVD lastF (hpoi x) hpx
        (k, p) hlookx hple
      rw [placeCandidates_cons, heq]
      cases j with
      | zero => exact List.getElem?_cons_zero
      | succ i =>
        have hj' : i < rest.length := by simpa using hj
        have hkey' : (rest.get ⟨i, hj'⟩).dedupKey = k := by
          have : (x :: rest).get ⟨i + 1, hj⟩ = rest.get ⟨i, hj'⟩ := by simp
          rw [← this]
          exact hkey
        rw [List.getElem?_cons_succ]
        exact ih cache ⟨p, hlook, hpb⟩ (fun y hy => hprio y (List.mem_cons_of_mem x hy))
          (fun y hy hyk => hpass y (List.mem_cons_of_mem x hy) hyk) i hj' hkey'
    · cases j with
      | zero =>
        have : x.dedupKey = k := by
          have hx0 : (x :: rest).get ⟨0, hj⟩ = x := rfl
          rw [← hx0]
          exact hkey
        exact absurd this hxk
      | succ i =>
        have hj' : i < rest.length := by simpa using hj
        have hkey' : (rest.get ⟨i, hj'⟩).dedupKey = k := by
          have : (x :: rest).get ⟨i + 1, hj⟩ = rest.get ⟨i, hj'⟩ := by simp
          rw [← this]
          exact hkey
        have hne : (mv.poiUpdate x).2.dedupKey ≠ k := by rw [hpoi x]; exact hxk
        have hpres := dedupLookup_checkReady_preserve ops x tile off mv cache maxVD lastF k hne
        rw [placeCandidates_cons, List.getElem?_cons_succ]
        refine ih _ ⟨p, ?_, hpb⟩ (fun y hy => hprio y (List.mem_cons_of_mem x hy))
          (fun y hy hyk => hpass y (List.mem_cons_of_mem x hy) hyk) i hj' hkey'
        rw [hpres, hlook]

/-- C2: within one frame, among candidates processed in priority-sorted
order that share a deduplication key (and pass the earlier pre-filter
checks, under a ready POI resolution that leaves elements unchanged), the
first one processed is accepted (`Ok`) and every later candidate with that
key is rejected as `Duplicate` — so at most one candidate per deduplication
key is accepted per frame. -/
theorem placeCandidates_dedup_unique (ops : VecOps) (tile : Tile) (off : ℚ) (mv : MapViewM)
    (maxVD : Option ℚ) (lastF : Option ℕ) (cacheStart : DedupCache)
    (pre post : List TextElement) (e : TextElement) (k : ℕ)
    (hpoi : ∀ x, mv.poiUpdate x = (true, x))
    (hsorted : (pre ++ e :: post).Sorted (fun a b => b.priority ≤ a.priority))
    (hk : e.dedupKey = k)
    (hpre : ∀ x ∈ pre, x.dedupKey ≠ k)
    (hstart : dedupLookup cacheStart k = none)
    (hpass : passesPreChecks ops e tile off mv maxVD)
    (hpassPost : ∀ x ∈ post, x.dedupKey = k → passesPreChecks ops x tile off mv maxVD) :
    (placeCandidates ops tile off mv maxVD lastF (pre ++ e :: post)
        cacheStart)[pre.length]? = some PrePlacementResult.Ok ∧
    ∀ j (hj : j < post.length), (post.get ⟨j, hj⟩).dedupKey = k →
      (placeCandidates ops tile off mv maxVD lastF (pre ++ e :: post)
        cacheStart)[pre.length + 1 + j]? = some PrePlacementResult.Duplicate := by
  subst hk
  have hc1 : dedupLookup (placeCache ops tile off mv maxVD lastF pre cacheStart) e.dedupKey
      = none := by
    rw [placeCache_preserve ops tile off mv maxVD lastF e.dedupKey pre cacheStart
      (fun x hx => by rw [hpoi x]; exact hpre x hx)]
    exact hstart
  obtain ⟨vd, heqe⟩ := checkReady_ok_of_new ops e tile off mv
    (placeCache ops tile off mv maxVD lastF pre cacheStart) maxVD lastF (hpoi e) hpass hc1
  have happ := placeCandidates_append ops tile off mv maxVD lastF pre (e :: post) cacheStart
  have hlenpre : (placeCandidates ops tile off mv maxVD lastF pre cacheStart).length
      = pre.length := placeCandidates_length ops tile off mv maxVD lastF pre cacheStart
  have hprio : ∀ x ∈ post, x.priority ≤ e.priority :=
    List.rel_of_sorted_cons (List.pairwise_append.mp hsorted).2.1
  constructor
  · rw [happ, List.getElem?_append_right (le_of_eq hlenpre),
      show pre.length - (placeCandidates ops tile off mv maxVD lastF pre cacheStart).length
        = 0 from by rw [hlenpre]; omega,
      placeCandidates_cons, heqe]
    exact List.getElem?_cons_zero
  · intro j hj hkey
    rw [happ, List.getElem?_append_right (by rw [hlenpre]; omega),
      show pre.length + 1 + j
          - (placeCandidates ops tile off mv maxVD lastF pre cacheStart).length
        = j + 1 from by rw [hlenpre]; omega,
      placeCandidates_cons, heqe, List.getElem?_cons_succ]
    refine placeCandidates_post_dup ops tile off mv maxVD lastF e.dedupKey e.priority hpoi
      post ((e.dedupKey, e.priority) :: placeCache ops tile off mv maxVD lastF pre cacheStart)
      ⟨e.priority, ?_, le_refl e.priority⟩ hprio hpassPost j hj hkey
    rw [dedupLookup_cons, if_pos rfl]

/-- Witness for C2: two candidates with deduplication key 7 and priorities
5 and 3 processed in that order — the first is accepted, the second is
rejected as a duplicate. -/
theorem placeCandidates_dedup_unique_witness :
    (placeCandidates sampleOps sampleTile 0 sampleView none none
        [sampleElement, sampleElementLowPrio] [])[0]? = some PrePlacementResult.Ok ∧
    (placeCandidates sampleOps sampleTile 0 sampleView none none
        [sampleElement, sampleElementLowPrio] [])[1]?
      = some PrePlacementResult.Duplicate := by
  have h := placeCandidates_dedup_unique sampleOps sampleTile 0 sampleView none none []
    [] [sampleElementLowPrio] sampleElement 7 (fun x => rfl)
    (by decide) rfl (by simp) rfl
    ⟨rfl, rfl, by simp [preFilterViewDistance]⟩
    (by
      intro x hx hxk
      rw [List.mem_singleton.mp hx]
      exact ⟨rfl, rfl, by simp [preFilterViewDistance]⟩)
  exact ⟨h.1, h.2 0 (by norm_num) rfl⟩
